import Mathlib

/-!
# Verification of the APP_ACADEMIA workout backend

Shallow embedding of `src/backend/server.py`, a FastAPI + MongoDB CRUD
service for workout plans.  The Mongo collection is modelled as a list of
documents together with a counter supplying fresh ObjectIds; `ObjectId`
values are modelled as natural numbers, and their 24-character lowercase
hexadecimal string form (what `str(ObjectId)` produces and what
`ObjectId(s)` parses) is modelled by an explicit encoder/decoder pair.
`datetime.utcnow()` is modelled by an explicit `now : Nat` parameter.

A behaviour of the source that matters throughout: in the handlers
`get_workout`, `update_workout`, `delete_workout` and `copy_workout` the
`raise HTTPException(...)` statements sit inside a `try` block whose
`except Exception as e` clause catches *every* exception — including the
`HTTPException`s the handler itself raises, since FastAPI's
`HTTPException` is a subclass of `Exception` — and re-raises
`HTTPException(status_code=400, detail=str(e))`.  The embedding models
this wrapping explicitly via `PyExc` and `excStr` (Starlette's
`HTTPException.__str__` is `f"{status_code}: {detail}"`).
-/

namespace Academia

/-! ## ObjectId strings: 24-character hexadecimal encoding -/

/-- A hexadecimal digit character, as accepted by `bytes.fromhex` inside
`bson.ObjectId.__init__` (both cases). -/
def isHexDigitChar (c : Char) : Bool :=
  ('0' ≤ c && c ≤ '9') || ('a' ≤ c && c ≤ 'f') || ('A' ≤ c && c ≤ 'F')

/-- Structural validity of an id string: `bson.ObjectId` accepts a string
iff it has length 24 and consists of hex digits. -/
def isValidObjectId (s : String) : Bool :=
  s.length == 24 && s.data.all isHexDigitChar

/-- Value of a hex digit character (case-insensitive). -/
def hexVal (c : Char) : Nat :=
  if c.toNat ≤ 57 then c.toNat - 48
  else if c.toNat ≤ 70 then c.toNat - 55
  else c.toNat - 87

/-- Lowercase hex digit character for a value `< 16`, as produced by
`str(ObjectId)`. -/
def hexChar (n : Nat) : Char :=
  if n < 10 then Char.ofNat (48 + n) else Char.ofNat (87 + n)

/-- Big-endian fixed-width hex encoding. -/
def encodeHex : Nat → Nat → List Char
  | 0, _ => []
  | w + 1, n => encodeHex w (n / 16) ++ [hexChar (n % 16)]

/-- Numeric value of a hex digit string (big-endian). -/
def decodeHex (cs : List Char) : Nat :=
  cs.foldl (fun a c => 16 * a + hexVal c) 0

/-- `str(oid)`: the canonical 24-character lowercase hex form of an
ObjectId. -/
def idString (n : Nat) : String :=
  ⟨encodeHex 24 n⟩

/-- `bson.ObjectId(s)`: succeeds exactly on structurally valid strings,
and two valid strings denote the same ObjectId iff they have the same
numeric value (hex parsing is case-insensitive). -/
def parseObjectId (s : String) : Option Nat :=
  if isValidObjectId s then some (decodeHex s.data) else none


/-! ## Data model (pydantic models of `server.py`) -/

/-- `class Exercise(BaseModel)`: name, sets, reps required; weight and
notes optional with default `""`. -/
structure Exercise where
  name : String
  sets : Int
  reps : String
  weight : Option String
  notes : Option String
deriving DecidableEq, Repr

/-- `class WorkoutSplit(BaseModel)`: a day label and its exercises. -/
structure WorkoutSplit where
  day : String
  exercises : List Exercise
deriving DecidableEq, Repr

/-- The two values of `Literal["predefined", "custom"]`. -/
inductive WType where
  | predefined
  | custom
deriving DecidableEq, Repr

/-- A document of the `workouts` Mongo collection: the fields written by
`create_workout` / `copy_workout` / `initialize_predefined_workouts`,
keyed by its ObjectId. -/
structure WorkoutDoc where
  oid : Nat
  name : String
  type : WType
  splits : List WorkoutSplit
  createdAt : Nat
deriving DecidableEq, Repr

/-- The serialized workout returned to clients (`serialize_workout`):
the document with `_id` replaced by the string `id = str(_id)`. -/
structure WorkoutOut where
  id : String
  name : String
  type : WType
  splits : List WorkoutSplit
  createdAt : Nat
deriving DecidableEq, Repr

/-- `serialize_workout`. -/
def serialize_workout (w : WorkoutDoc) : WorkoutOut :=
  ⟨idString w.oid, w.name, w.type, w.splits, w.createdAt⟩

/-! ## Exceptions and the handler-level `except` wrapper -/

/-- Exceptions that arise in the handler bodies: `HTTPException`s raised
by the handlers, and `bson.errors.InvalidId` raised by `ObjectId(...)`. -/
inductive PyExc where
  | http (status : Nat) (detail : String)
  | invalidId (msg : String)
deriving DecidableEq, Repr

/-- `str(e)`: Starlette's `HTTPException.__str__` is
`f"{status_code}: {detail}"`; `InvalidId` stringifies to its message. -/
def excStr : PyExc → String
  | .http status detail => toString status ++ ": " ++ detail
  | .invalidId msg => msg

/-- The message of `bson.errors.InvalidId` for a rejected id string. -/
def invalidIdMessage (s : String) : String :=
  "'" ++ s ++ "' is not a valid ObjectId, it must be a 12-byte input " ++
    "or a 24-character hex string"

/-- The HTTP status of a handler outcome (200 on success). -/
def respStatus {α : Type} : Except PyExc α → Nat
  | .ok _ => 200
  | .error (.http status _) => status
  | .error (.invalidId _) => 400

/-! ## The Mongo collection -/

/-- The `workouts` collection: stored documents in insertion order, plus
a counter from which the driver mints fresh ObjectIds. -/
structure Store where
  docs : List WorkoutDoc
  nextOid : Nat
deriving DecidableEq, Repr

/-- A collection as actually produced by the driver: every stored id was
minted below the counter (hence ids are in range and a fresh id is new),
and distinct documents carry distinct ids. -/
def Store.wf (s : Store) : Prop :=
  s.nextOid < 16 ^ 24 ∧ (∀ d ∈ s.docs, d.oid < s.nextOid) ∧
    s.docs.Pairwise (fun a b => a.oid ≠ b.oid)

instance (s : Store) : Decidable s.wf := by
  unfold Store.wf; infer_instance

/-- The empty collection of a fresh deployment. -/
def emptyStore : Store := ⟨[], 0⟩

/-- `find_one({"_id": oid})`: first document with the given id. -/
def findOne (docs : List WorkoutDoc) (oid : Nat) : Option WorkoutDoc :=
  docs.find? (fun d => d.oid == oid)

/-- `insert_one`: append the document under a freshly minted id. -/
def insertOne (s : Store) (name : String) (type : WType)
    (splits : List WorkoutSplit) (createdAt : Nat) : Nat × Store :=
  (s.nextOid,
    ⟨s.docs ++ [⟨s.nextOid, name, type, splits, createdAt⟩], s.nextOid + 1⟩)

/-- `delete_one({"_id": oid})`: remove the first matching document;
returns the new list and `deleted_count`. -/
def deleteFirst : List WorkoutDoc → Nat → List WorkoutDoc × Nat
  | [], _ => ([], 0)
  | d :: ds, oid =>
    if d.oid = oid then (ds, 1)
    else
      let r := deleteFirst ds oid
      (d :: r.1, r.2)

/-- `count_documents({"type": "predefined"})`. -/
def countPredefined (s : Store) : Nat :=
  (s.docs.filter (fun d => decide (d.type = WType.predefined))).length

/-! ## Request bodies and boundary validation -/

/-- `class WorkoutCreate(BaseModel)`: a request body that passed
pydantic validation. -/
structure WorkoutCreate where
  name : String
  type : WType
  splits : List WorkoutSplit
deriving DecidableEq, Repr

/-- A loose JSON create body before pydantic validation, with each field
possibly absent; the `type` field is an arbitrary string. -/
structure WorkoutCreateRaw where
  name : Option String
  type : Option String
  splits : Option (List WorkoutSplit)
deriving DecidableEq, Repr

/-- Pydantic validation of `WorkoutCreate`: all three fields are
required, and `type` must be one of the two `Literal` values; FastAPI
answers 422 otherwise.  `name: str` imposes no further constraint (the
empty string is accepted). -/
def validateWorkoutCreate (r : WorkoutCreateRaw) :
    Except PyExc WorkoutCreate :=
  match r.name, r.type, r.splits with
  | some name, some type, some splits =>
    if type = "predefined" then .ok ⟨name, .predefined, splits⟩
    else if type = "custom" then .ok ⟨name, .custom, splits⟩
    else .error (.http 422 "validation error")
  | _, _, _ => .error (.http 422 "validation error")

/-- `class WorkoutUpdate(BaseModel)`: both fields optional. -/
structure WorkoutUpdate where
  name : Option String
  splits : Option (List WorkoutSplit)
deriving DecidableEq, Repr

/-- The `{"$set": update_data}` write of `update_workout`: overwrite
exactly the fields the caller supplied. -/
def setFields (u : WorkoutUpdate) (d : WorkoutDoc) : WorkoutDoc :=
  { d with name := u.name.getD d.name, splits := u.splits.getD d.splits }

/-- `update_one({"_id": oid}, {"$set": ...})`: update the first matching
document; returns the new list and `matched_count`. -/
def updateFirst : List WorkoutDoc → Nat → WorkoutUpdate →
    List WorkoutDoc × Nat
  | [], _, _ => ([], 0)
  | d :: ds, oid, u =>
    if d.oid = oid then (setFields u d :: ds, 1)
    else
      let r := updateFirst ds oid u
      (d :: r.1, r.2)

/-! ## Handlers

Each handler's `try ... except Exception as e: raise
HTTPException(status_code=400, detail=str(e))` is modelled by emitting
`.http 400 (excStr e)` wherever the Python body raises `e` inside the
`try` block — in particular the handlers' own `HTTPException(404, ...)`
never escapes with status 404. -/

/-- `GET /api/workouts/{workout_id}` (`get_workout`). -/
def get_workout (workout_id : String) (s : Store) :
    Except PyExc WorkoutOut :=
  match parseObjectId workout_id with
  | none => .error (.http 400 (excStr (.invalidId (invalidIdMessage workout_id))))
  | some oid =>
    match findOne s.docs oid with
    | none => .error (.http 400 (excStr (.http 404 "Treino não encontrado")))
    | some w => .ok (serialize_workout w)

/-- `POST /api/workouts` (`create_workout`), after validation: insert
with a server-assigned `createdAt`, re-read the inserted document and
serialize it (`find_one` can in principle return nothing, hence the
`Option`). -/
def create_workout (w : WorkoutCreate) (now : Nat) (s : Store) :
    Option WorkoutOut × Store :=
  let r := insertOne s w.name w.type w.splits now
  ((findOne r.2.docs r.1).map serialize_workout, r.2)

/-- `POST /api/workouts` at the route boundary: pydantic validation
first, then `create_workout`. -/
def post_workouts (raw : WorkoutCreateRaw) (now : Nat) (s : Store) :
    Except PyExc (Option WorkoutOut) × Store :=
  match validateWorkoutCreate raw with
  | .error e => (.error e, s)
  | .ok w =>
    let r := create_workout w now s
    (.ok r.1, r.2)

/-- `PUT /api/workouts/{workout_id}` (`update_workout`).  The emptiness
check on `update_data` precedes the `ObjectId` parse; the final
`find_one` after a successful `update_one` is re-serialized (its
impossible `None` case is modelled as a 500, matching a response-model
failure). -/
def update_workout (workout_id : String) (u : WorkoutUpdate) (s : Store) :
    Except PyExc WorkoutOut × Store :=
  if u.name = none ∧ u.splits = none then
    (.error (.http 400 (excStr (.http 400 "Nenhum dado para atualizar"))), s)
  else
    match parseObjectId workout_id with
    | none =>
      (.error (.http 400 (excStr (.invalidId (invalidIdMessage workout_id)))), s)
    | some oid =>
      let r := updateFirst s.docs oid u
      if r.2 = 0 then
        (.error (.http 400 (excStr (.http 404 "Treino não encontrado"))),
          ⟨r.1, s.nextOid⟩)
      else
        match findOne r.1 oid with
        | some w => (.ok (serialize_workout w), ⟨r.1, s.nextOid⟩)
        | none => (.error (.http 500 "response serialization failed"),
            ⟨r.1, s.nextOid⟩)

/-- `DELETE /api/workouts/{workout_id}` (`delete_workout`). -/
def delete_workout (workout_id : String) (s : Store) :
    Except PyExc String × Store :=
  match parseObjectId workout_id with
  | none =>
    (.error (.http 400 (excStr (.invalidId (invalidIdMessage workout_id)))), s)
  | some oid =>
    let r := deleteFirst s.docs oid
    if r.2 = 0 then
      (.error (.http 400 (excStr (.http 404 "Treino não encontrado"))),
        ⟨r.1, s.nextOid⟩)
    else
      (.ok "Treino deletado com sucesso", ⟨r.1, s.nextOid⟩)

/-- `POST /api/workouts/{workout_id}/copy` (`copy_workout`): read the
source, insert a new document with `type` forced to `"custom"`, the
caller-supplied name, the source's splits, and a fresh timestamp. -/
def copy_workout (workout_id : String) (new_name : String) (now : Nat)
    (s : Store) : Except PyExc WorkoutOut × Store :=
  match parseObjectId workout_id with
  | none =>
    (.error (.http 400 (excStr (.invalidId (invalidIdMessage workout_id)))), s)
  | some oid =>
    match findOne s.docs oid with
    | none =>
      (.error (.http 400 (excStr (.http 404 "Treino não encontrado"))), s)
    | some original =>
      let r := insertOne s new_name .custom original.splits now
      match findOne r.2.docs r.1 with
      | some w => (.ok (serialize_workout w), r.2)
      | none => (.error (.http 500 "response serialization failed"), r.2)

/-- `GET /api/workouts/predefined` (`get_predefined_workouts`):
`find({"type": "predefined"}).to_list(100)` in insertion order. -/
def get_predefined_workouts (s : Store) : List WorkoutOut :=
  (((s.docs.filter (fun d => decide (d.type = WType.predefined))).take 100).map
    serialize_workout)

/-! ## Seeding (`initialize_predefined_workouts`)

The catalog dicts all carry `"weight": ""` and `"notes": ""`, and each
`"createdAt": datetime.utcnow()` is modelled as the seeding moment
`now`. -/

/-- An exercise dict of the seed catalog (`weight` and `notes` both
present and empty). -/
def ex (name : String) (sets : Int) (reps : String) : Exercise :=
  ⟨name, sets, reps, some "", some ""⟩

/-- A document as passed to `insert_many`, before the driver assigns its
`_id`. -/
structure WorkoutSeed where
  name : String
  type : WType
  splits : List WorkoutSplit
  createdAt : Nat
deriving DecidableEq, Repr

/-- The fixed four-workout catalog of `initialize_predefined_workouts`. -/
def predefined_workouts (now : Nat) : List WorkoutSeed :=
  [ ⟨"ABC - Clássico", .predefined,
      [ ⟨"A - Peito e Tríceps",
          [ ex "Supino Reto" 4 "8-12", ex "Supino Inclinado" 3 "10-12",
            ex "Crucifixo" 3 "12-15", ex "Tríceps Testa" 3 "10-12",
            ex "Tríceps Corda" 3 "12-15" ]⟩,
        ⟨"B - Costas e Bíceps",
          [ ex "Barra Fixa" 4 "8-10", ex "Remada Curvada" 4 "8-12",
            ex "Puxada Frontal" 3 "10-12", ex "Rosca Direta" 3 "10-12",
            ex "Rosca Martelo" 3 "12-15" ]⟩,
        ⟨"C - Pernas e Ombros",
          [ ex "Agachamento Livre" 4 "8-12", ex "Leg Press" 4 "10-12",
            ex "Cadeira Extensora" 3 "12-15", ex "Desenvolvimento" 4 "8-12",
            ex "Elevação Lateral" 3 "12-15" ]⟩ ], now⟩,
    ⟨"ABCDE - Avançado", .predefined,
      [ ⟨"A - Peito",
          [ ex "Supino Reto" 4 "8-10", ex "Supino Inclinado" 4 "8-10",
            ex "Crucifixo Inclinado" 3 "10-12", ex "Crossover" 3 "12-15" ]⟩,
        ⟨"B - Costas",
          [ ex "Barra Fixa" 4 "8-10", ex "Remada Curvada" 4 "8-10",
            ex "Puxada Frontal" 3 "10-12", ex "Remada Baixa" 3 "10-12" ]⟩,
        ⟨"C - Pernas",
          [ ex "Agachamento Livre" 4 "8-10", ex "Leg Press" 4 "10-12",
            ex "Cadeira Extensora" 3 "12-15", ex "Mesa Flexora" 3 "12-15",
            ex "Panturrilha em Pé" 4 "15-20" ]⟩,
        ⟨"D - Ombros",
          [ ex "Desenvolvimento" 4 "8-10", ex "Elevação Lateral" 4 "12-15",
            ex "Elevação Frontal" 3 "12-15", ex "Crucifixo Inverso" 3 "12-15" ]⟩,
        ⟨"E - Braços",
          [ ex "Rosca Direta" 4 "8-12", ex "Rosca Alternada" 3 "10-12",
            ex "Tríceps Testa" 4 "8-12", ex "Tríceps Corda" 3 "12-15" ]⟩ ], now⟩,
    ⟨"Push/Pull/Legs", .predefined,
      [ ⟨"Push - Empurrar",
          [ ex "Supino Reto" 4 "8-10", ex "Desenvolvimento" 4 "8-10",
            ex "Supino Inclinado" 3 "10-12", ex "Elevação Lateral" 3 "12-15",
            ex "Tríceps Corda" 3 "12-15" ]⟩,
        ⟨"Pull - Puxar",
          [ ex "Barra Fixa" 4 "8-10", ex "Remada Curvada" 4 "8-10",
            ex "Puxada Frontal" 3 "10-12", ex "Rosca Direta" 3 "10-12",
            ex "Rosca Martelo" 3 "12-15" ]⟩,
        ⟨"Legs - Pernas",
          [ ex "Agachamento Livre" 4 "8-10", ex "Leg Press" 4 "10-12",
            ex "Cadeira Extensora" 3 "12-15", ex "Mesa Flexora" 3 "12-15",
            ex "Panturrilha" 4 "15-20" ]⟩ ], now⟩,
    ⟨"Upper/Lower", .predefined,
      [ ⟨"Upper - Parte Superior",
          [ ex "Supino Reto" 4 "8-10", ex "Remada Curvada" 4 "8-10",
            ex "Desenvolvimento" 3 "10-12", ex "Puxada Frontal" 3 "10-12",
            ex "Rosca Direta" 3 "10-12", ex "Tríceps Corda" 3 "12-15" ]⟩,
        ⟨"Lower - Parte Inferior",
          [ ex "Agachamento Livre" 4 "8-10", ex "Leg Press" 4 "10-12",
            ex "Stiff" 3 "10-12", ex "Cadeira Extensora" 3 "12-15",
            ex "Mesa Flexora" 3 "12-15", ex "Panturrilha" 4 "15-20" ]⟩ ], now⟩ ]

/-- `insert_many`: insert the documents in order, each under a freshly
minted id. -/
def insertMany (s : Store) (ws : List WorkoutSeed) : Store :=
  ws.foldl
    (fun st w =>
      ⟨st.docs ++ [⟨st.nextOid, w.name, w.type, w.splits, w.createdAt⟩],
        st.nextOid + 1⟩)
    s

/-- `initialize_predefined_workouts` (the startup hook): seed the fixed
catalog iff no predefined workout exists. -/
def initialize_predefined_workouts (now : Nat) (s : Store) : Store :=
  if countPredefined s = 0 then insertMany s (predefined_workouts now) else s

/-! ## Lemmas: hex encoding round-trip -/

theorem hexVal_hexChar (m : Nat) (h : m < 16) : hexVal (hexChar m) = m := by
  interval_cases m <;> rfl

theorem isHexDigitChar_hexChar (m : Nat) (h : m < 16) :
    isHexDigitChar (hexChar m) = true := by
  interval_cases m <;> rfl

theorem length_encodeHex (w n : Nat) : (encodeHex w n).length = w := by
  induction w generalizing n with
  | zero => rfl
  | succ w ih => simp [encodeHex, ih]

theorem all_hex_encodeHex (w n : Nat) :
    (encodeHex w n).all isHexDigitChar = true := by
  induction w generalizing n with
  | zero => rfl
  | succ w ih =>
    simp [encodeHex, List.all_append, ih,
      isHexDigitChar_hexChar (n % 16) (Nat.mod_lt _ (by norm_num))]

theorem mod_sixteen_pow_succ (n w : Nat) :
    n % 16 ^ (w + 1) = 16 * (n / 16 % 16 ^ w) + n % 16 := by
  have hpow : (0 : Nat) < 16 ^ w := Nat.pow_pos (by norm_num)
  have h16 : 16 ^ (w + 1) = 16 * 16 ^ w := by rw [Nat.pow_succ, Nat.mul_comm]
  have hr : n % 16 < 16 := Nat.mod_lt _ (by norm_num)
  have hq : n / 16 % 16 ^ w < 16 ^ w := Nat.mod_lt _ hpow
  conv_lhs => rw [← Nat.div_add_mod n 16]
  rw [h16, Nat.add_mod, Nat.mul_mod_mul_left]
  have h1 : (n % 16) % (16 * 16 ^ w) = n % 16 :=
    Nat.mod_eq_of_lt (Nat.lt_of_lt_of_le hr (Nat.le_mul_of_pos_right 16 hpow))
  rw [h1]
  exact Nat.mod_eq_of_lt (by omega)

theorem foldl_encodeHex (w n a : Nat) :
    (encodeHex w n).foldl (fun a c => 16 * a + hexVal c) a
      = a * 16 ^ w + n % 16 ^ w := by
  induction w generalizing n a with
  | zero => simp [encodeHex, Nat.mod_one]
  | succ w ih =>
    rw [encodeHex, List.foldl_append, ih]
    simp only [List.foldl_cons, List.foldl_nil]
    rw [hexVal_hexChar (n % 16) (Nat.mod_lt _ (by norm_num)),
      mod_sixteen_pow_succ]
    ring

theorem decodeHex_encodeHex (w n : Nat) :
    decodeHex (encodeHex w n) = n % 16 ^ w := by
  have := foldl_encodeHex w n 0
  simpa [decodeHex] using this

/-- Parsing the canonical string form of an in-range ObjectId recovers
it. -/
theorem parse_idString (n : Nat) (h : n < 16 ^ 24) :
    parseObjectId (idString n) = some n := by
  have hval : isValidObjectId (idString n) = true := by
    simp [isValidObjectId, idString, String.length, length_encodeHex,
      all_hex_encodeHex]
  have hdata : (idString n).data = encodeHex 24 n := rfl
  simp [parseObjectId, hval, hdata, decodeHex_encodeHex, Nat.mod_eq_of_lt h]
  norm_num at h
  exact h

/-- Canonical string forms of distinct in-range ObjectIds differ. -/
theorem idString_injOn (m n : Nat) (hm : m < 16 ^ 24) (hn : n < 16 ^ 24)
    (h : idString m = idString n) : m = n := by
  have h1 := parse_idString m hm
  have h2 := parse_idString n hn
  rw [h] at h1; rw [h1] at h2; exact (Option.some_inj.mp h2)

/-! ## Lemmas: collection operations -/

/-- With pairwise-distinct ids, `find_one` on a member's id returns that
member. -/
theorem findOne_of_mem (docs : List WorkoutDoc) (W : WorkoutDoc)
    (hpw : docs.Pairwise (fun a b => a.oid ≠ b.oid)) (hW : W ∈ docs) :
    findOne docs W.oid = some W := by
  induction docs with
  | nil => cases hW
  | cons d ds ih =>
    rcases List.mem_cons.mp hW with rfl | hmem
    · rw [findOne, List.find?_cons_of_pos _ (by simp)]
    · have hd : d.oid ≠ W.oid := (List.pairwise_cons.mp hpw).1 W hmem
      rw [findOne, List.find?_cons_of_neg _ (by simp [hd])]
      exact ih (List.pairwise_cons.mp hpw).2 hmem

/-- `find_one` on a freshly appended document's id finds it, provided no
earlier document already carries that id. -/
theorem findOne_append_fresh (docs : List WorkoutDoc) (d : WorkoutDoc)
    (h : ∀ e ∈ docs, e.oid ≠ d.oid) :
    findOne (docs ++ [d]) d.oid = some d := by
  induction docs with
  | nil =>
    rw [findOne, List.nil_append, List.find?_cons_of_pos _ (by simp)]
  | cons e es ih =>
    have he : e.oid ≠ d.oid := h e (List.mem_cons_self e es)
    rw [findOne, List.cons_append, List.find?_cons_of_neg _ (by simp [he])]
    exact ih (fun x hx => h x (List.mem_cons_of_mem e hx))

/-- `update_one` reports `matched_count = 1` when `find_one` finds a
match. -/
theorem updateFirst_count_of_found (docs : List WorkoutDoc) (oid : Nat)
    (u : WorkoutUpdate) (W : WorkoutDoc) (hf : findOne docs oid = some W) :
    (updateFirst docs oid u).2 = 1 := by
  induction docs with
  | nil => simp [findOne] at hf
  | cons d ds ih =>
    by_cases hd : d.oid = oid
    · simp [updateFirst, hd]
    · rw [findOne, List.find?_cons_of_neg _ (by simp [hd])] at hf
      simpa [updateFirst, hd] using ih hf

/-- Re-reading the updated id after `update_one` returns the matched
document with exactly the supplied fields overwritten. -/
theorem findOne_updateFirst (docs : List WorkoutDoc) (oid : Nat)
    (u : WorkoutUpdate) (W : WorkoutDoc) (hf : findOne docs oid = some W) :
    findOne (updateFirst docs oid u).1 oid = some (setFields u W) := by
  induction docs with
  | nil => simp [findOne] at hf
  | cons d ds ih =>
    by_cases hd : d.oid = oid
    · rw [findOne, List.find?_cons_of_pos _ (by simp [hd])] at hf
      obtain rfl : d = W := Option.some_inj.mp hf
      simp only [updateFirst, if_pos hd]
      rw [findOne, List.find?_cons_of_pos _ (by simp [setFields, hd])]
    · rw [findOne, List.find?_cons_of_neg _ (by simp [hd])] at hf
      have hrec := ih hf
      simp only [updateFirst, if_neg hd]
      rw [findOne, List.find?_cons_of_neg _ (by simp [hd])]
      exact hrec

/-- Documents whose id is not the updated one survive `update_one`
unchanged. -/
theorem mem_updateFirst_of_ne (docs : List WorkoutDoc) (oid : Nat)
    (u : WorkoutUpdate) (d : WorkoutDoc) (hd : d ∈ docs)
    (hne : d.oid ≠ oid) : d ∈ (updateFirst docs oid u).1 := by
  induction docs with
  | nil => cases hd
  | cons e es ih =>
    by_cases he : e.oid = oid
    · rcases List.mem_cons.mp hd with rfl | hmem
      · exact absurd he hne
      · simp [updateFirst, he, List.mem_cons, hmem]
    · rcases List.mem_cons.mp hd with rfl | hmem
      · simp [updateFirst, he]
      · simp [updateFirst, he, List.mem_cons, ih hmem]

/-- `update_one` never touches `_id`, `type` or `createdAt` of any
document. -/
theorem updateFirst_preserves_type_createdAt (docs : List WorkoutDoc)
    (oid : Nat) (u : WorkoutUpdate) :
    (updateFirst docs oid u).1.map (fun d => (d.oid, d.type, d.createdAt))
      = docs.map (fun d => (d.oid, d.type, d.createdAt)) := by
  induction docs with
  | nil => rfl
  | cons d ds ih =>
    by_cases hd : d.oid = oid
    · simp [updateFirst, hd, setFields]
    · simp [updateFirst, hd, ih]

/-- Characterization of `update_workout` on a stored workout with a
non-empty body: 200 with the merged document, which is what the store
now holds under that id. -/
theorem update_existing (s : Store) (W : WorkoutDoc) (h : s.wf)
    (hW : W ∈ s.docs) (u : WorkoutUpdate)
    (hu : ¬(u.name = none ∧ u.splits = none)) :
    update_workout (idString W.oid) u s =
      (.ok (serialize_workout (setFields u W)),
        ⟨(updateFirst s.docs W.oid u).1, s.nextOid⟩) := by
  obtain ⟨hbound, hlt, hpw⟩ := h
  have hoid : W.oid < 16 ^ 24 := Nat.lt_trans (hlt W hW) hbound
  have hf : findOne s.docs W.oid = some W := findOne_of_mem s.docs W hpw hW
  have hcount := updateFirst_count_of_found s.docs W.oid u W hf
  have hfind := findOne_updateFirst s.docs W.oid u W hf
  rw [update_workout, if_neg hu, parse_idString W.oid hoid]
  simp [hcount, hfind]

/-- Characterization of `copy_workout` on a stored workout: 200 with a
fresh custom document carrying the source's splits, appended to the
collection. -/
theorem copy_existing (s : Store) (W : WorkoutDoc) (h : s.wf)
    (hW : W ∈ s.docs) (new_name : String) (now : Nat) :
    copy_workout (idString W.oid) new_name now s =
      (.ok ⟨idString s.nextOid, new_name, .custom, W.splits, now⟩,
        ⟨s.docs ++ [⟨s.nextOid, new_name, .custom, W.splits, now⟩],
          s.nextOid + 1⟩) := by
  obtain ⟨hbound, hlt, hpw⟩ := h
  have hoid : W.oid < 16 ^ 24 := Nat.lt_trans (hlt W hW) hbound
  have hf : findOne s.docs W.oid = some W := findOne_of_mem s.docs W hpw hW
  have hfresh : findOne
      (s.docs ++ [⟨s.nextOid, new_name, .custom, W.splits, now⟩]) s.nextOid
        = some ⟨s.nextOid, new_name, .custom, W.splits, now⟩ :=
    findOne_append_fresh s.docs _ (fun e he => Nat.ne_of_lt (hlt e he))
  rw [copy_workout, parse_idString W.oid hoid]
  simp [hf, insertOne, hfresh, serialize_workout]

/-- Characterization of `create_workout`: the inserted document is found
again and serialized. -/
theorem create_spec (s : Store) (h : s.wf) (w : WorkoutCreate) (now : Nat) :
    create_workout w now s =
      (some ⟨idString s.nextOid, w.name, w.type, w.splits, now⟩,
        ⟨s.docs ++ [⟨s.nextOid, w.name, w.type, w.splits, now⟩],
          s.nextOid + 1⟩) := by
  obtain ⟨hbound, hlt, hpw⟩ := h
  have hfresh : findOne
      (s.docs ++ [⟨s.nextOid, w.name, w.type, w.splits, now⟩]) s.nextOid
        = some ⟨s.nextOid, w.name, w.type, w.splits, now⟩ :=
    findOne_append_fresh s.docs _ (fun e he => Nat.ne_of_lt (hlt e he))
  simp [create_workout, insertOne, hfresh, serialize_workout]

/-! ## Claims -/

/-- Claim C1 (code bug): the claim says a well-formed 24-hex id matching
no stored workout makes `get_workout` fail with 404; in the code the
`except Exception` clause catches the handler's own
`HTTPException(404)` and re-raises it as a 400 whose detail is the
stringified 404, so the observed status is 400.  Evaluated at the
spec's own example input (24 zero hex digits, empty collection). -/
theorem get_nonexistent_wellformed_id_returns_400 :
    get_workout "000000000000000000000000" emptyStore
      = .error (.http 400 "404: Treino não encontrado") := rfl

/-- Claim C2 (counterexample): a create request with an empty name and a
valid type passes pydantic validation (`name: str` accepts `""`), is
answered 200, and stores a document — refuting the claim that an
empty-name create is rejected with 422 and stores nothing. -/
theorem create_empty_name_is_accepted :
    validateWorkoutCreate ⟨some "", some "custom", some []⟩
        = .ok ⟨"", WType.custom, []⟩ ∧
    (post_workouts ⟨some "", some "custom", some []⟩ 0 emptyStore).1
        = .ok (some ⟨idString 0, "", WType.custom, [], 0⟩) ∧
    (post_workouts ⟨some "", some "custom", some []⟩ 0 emptyStore).2
        = ⟨[⟨0, "", WType.custom, [], 0⟩], 1⟩ :=
  ⟨rfl, rfl, rfl⟩

/-- Claim C2 as amended: a create request whose `type` field is not one
of the two enum values `"predefined"`/`"custom"` (including an absent
one) is rejected with a 422 validation error and stores nothing; an
empty name is not by itself rejected. -/
theorem create_bad_type_rejected_422 (raw : WorkoutCreateRaw) (now : Nat)
    (s : Store) (h1 : raw.type ≠ some "predefined")
    (h2 : raw.type ≠ some "custom") :
    post_workouts raw now s = (.error (.http 422 "validation error"), s) := by
  obtain ⟨n, t, sp⟩ := raw
  cases n <;> cases t <;> cases sp <;>
    simp_all [post_workouts, validateWorkoutCreate]

theorem create_bad_type_rejected_422_witness :
    post_workouts ⟨some "X", some "bad", some []⟩ 0 emptyStore
      = (.error (.http 422 "validation error"), emptyStore) :=
  create_bad_type_rejected_422 ⟨some "X", some "bad", some []⟩ 0 emptyStore
    (by decide) (by decide)

/-- Claim C3: copying a stored workout `W` under a supplied name yields
200 with a new document of type `custom`, the supplied name, splits
equal to `W`'s, the fresh timestamp, and an id different from `W`'s;
the collection afterwards is exactly the old collection (including `W`,
untouched) with the new document appended. -/
theorem copy_creates_custom_duplicate (s : Store) (W : WorkoutDoc)
    (h : s.wf) (hW : W ∈ s.docs) (new_name : String) (now : Nat) :
    copy_workout (idString W.oid) new_name now s
      = (.ok ⟨idString s.nextOid, new_name, WType.custom, W.splits, now⟩,
          ⟨s.docs ++ [⟨s.nextOid, new_name, WType.custom, W.splits, now⟩],
            s.nextOid + 1⟩) ∧
    idString s.nextOid ≠ idString W.oid := by
  obtain ⟨hbound, hlt, hpw⟩ := h
  refine ⟨copy_existing s W ⟨hbound, hlt, hpw⟩ hW new_name now, ?_⟩
  intro heq
  have heq2 := idString_injOn s.nextOid W.oid hbound
    (Nat.lt_trans (hlt W hW) hbound) heq
  exact absurd heq2.symm (Nat.ne_of_lt (hlt W hW))

theorem copy_creates_custom_duplicate_witness :
    copy_workout (idString 0) "Nova" 5 ⟨[⟨0, "W", WType.predefined, [], 0⟩], 1⟩
      = (.ok ⟨idString 1, "Nova", WType.custom, [], 5⟩,
          ⟨[⟨0, "W", WType.predefined, [], 0⟩, ⟨1, "Nova", WType.custom, [], 5⟩],
            2⟩) ∧
    idString 1 ≠ idString 0 := by
  have h := copy_creates_custom_duplicate ⟨[⟨0, "W", WType.predefined, [], 0⟩], 1⟩
    ⟨0, "W", WType.predefined, [], 0⟩ (by decide) (by decide) "Nova" 5
  exact h

/-- Claim C4: the startup hook seeds the fixed four-workout catalog iff
zero predefined workouts exist and is the identity otherwise; hence any
number of re-invocations after first boot changes nothing, and listing
predefined workouts after first boot returns exactly the four seeded
entries. -/
theorem seeding_iff_empty_and_idempotent (t0 t : Nat) (n : Nat) (s : Store) :
    (countPredefined s = 0 →
      initialize_predefined_workouts t s
        = insertMany s (predefined_workouts t)) ∧
    (countPredefined s ≠ 0 → initialize_predefined_workouts t s = s) ∧
    (Nat.iterate (initialize_predefined_workouts t) n
        (initialize_predefined_workouts t0 emptyStore)
      = initialize_predefined_workouts t0 emptyStore) ∧
    (get_predefined_workouts (initialize_predefined_workouts t0 emptyStore)
      = ((insertMany emptyStore (predefined_workouts t0)).docs).map
          serialize_workout) ∧
    ((get_predefined_workouts
        (initialize_predefined_workouts t0 emptyStore)).map WorkoutOut.name
      = ["ABC - Clássico", "ABCDE - Avançado", "Push/Pull/Legs",
          "Upper/Lower"]) := by
  have hseed : countPredefined (initialize_predefined_workouts t0 emptyStore)
      = 4 := rfl
  have hstep : initialize_predefined_workouts t
      (initialize_predefined_workouts t0 emptyStore)
        = initialize_predefined_workouts t0 emptyStore := by
    rw [initialize_predefined_workouts, if_neg (by rw [hseed]; norm_num)]
  refine ⟨fun h0 => by rw [initialize_predefined_workouts, if_pos h0],
    fun hne => by rw [initialize_predefined_workouts, if_neg hne], ?_, rfl, rfl⟩
  induction n with
  | zero => rfl
  | succ n ih => rw [Function.iterate_succ_apply, hstep, ih]

theorem seeding_iff_empty_and_idempotent_witness :
    (initialize_predefined_workouts 3 emptyStore
      = insertMany emptyStore (predefined_workouts 3)) ∧
    (initialize_predefined_workouts 7
        (initialize_predefined_workouts 0 emptyStore)
      = initialize_predefined_workouts 0 emptyStore) :=
  ⟨(seeding_iff_empty_and_idempotent 0 3 1 emptyStore).1 (by decide),
    (seeding_iff_empty_and_idempotent 0 7 1
      (initialize_predefined_workouts 0 emptyStore)).2.1 (by decide)⟩

/-- Claim C5: `update_workout` writes only the supplied fields — a
name-only update leaves splits, type and timestamp as they were, a
splits-only update leaves name, type and timestamp as they were, no
update ever changes any document's id, type or `createdAt`, and
documents other than the target are untouched. -/
theorem update_applies_only_supplied_fields (s : Store) (W : WorkoutDoc)
    (h : s.wf) (hW : W ∈ s.docs) :
    (∀ newName : String,
      update_workout (idString W.oid) ⟨some newName, none⟩ s
        = (.ok (serialize_workout
              ⟨W.oid, newName, W.type, W.splits, W.createdAt⟩),
            ⟨(updateFirst s.docs W.oid ⟨some newName, none⟩).1, s.nextOid⟩) ∧
      findOne (update_workout (idString W.oid) ⟨some newName, none⟩ s).2.docs
          W.oid
        = some ⟨W.oid, newName, W.type, W.splits, W.createdAt⟩) ∧
    (∀ newSplits : List WorkoutSplit,
      update_workout (idString W.oid) ⟨none, some newSplits⟩ s
        = (.ok (serialize_workout
              ⟨W.oid, W.name, W.type, newSplits, W.createdAt⟩),
            ⟨(updateFirst s.docs W.oid ⟨none, some newSplits⟩).1, s.nextOid⟩) ∧
      findOne (update_workout (idString W.oid) ⟨none, some newSplits⟩ s).2.docs
          W.oid
        = some ⟨W.oid, W.name, W.type, newSplits, W.createdAt⟩) ∧
    (∀ (wid : String) (u : WorkoutUpdate),
      ((update_workout wid u s).2).docs.map
          (fun d => (d.oid, d.type, d.createdAt))
        = s.docs.map (fun d => (d.oid, d.type, d.createdAt))) ∧
    (∀ (u : WorkoutUpdate) (d : WorkoutDoc), d ∈ s.docs → d.oid ≠ W.oid →
      d ∈ (update_workout (idString W.oid) u s).2.docs) := by
  obtain ⟨hbound, hlt, hpw⟩ := h
  have hwf : s.wf := ⟨hbound, hlt, hpw⟩
  have hf : findOne s.docs W.oid = some W := findOne_of_mem s.docs W hpw hW
  refine ⟨?_, ?_, ?_, ?_⟩
  · intro newName
    have he := update_existing s W hwf hW ⟨some newName, none⟩ (by simp)
    have hsf : setFields ⟨some newName, none⟩ W
        = ⟨W.oid, newName, W.type, W.splits, W.createdAt⟩ := rfl
    rw [hsf] at he
    refine ⟨he, ?_⟩
    rw [he]
    have := findOne_updateFirst s.docs W.oid ⟨some newName, none⟩ W hf
    rw [hsf] at this
    exact this
  · intro newSplits
    have he := update_existing s W hwf hW ⟨none, some newSplits⟩ (by simp)
    have hsf : setFields ⟨none, some newSplits⟩ W
        = ⟨W.oid, W.name, W.type, newSplits, W.createdAt⟩ := rfl
    rw [hsf] at he
    refine ⟨he, ?_⟩
    rw [he]
    have := findOne_updateFirst s.docs W.oid ⟨none, some newSplits⟩ W hf
    rw [hsf] at this
    exact this
  · intro wid u
    rw [update_workout]
    by_cases hu : u.name = none ∧ u.splits = none
    · rw [if_pos hu]
    · rw [if_neg hu]
      cases hp : parseObjectId wid with
      | none => rfl
      | some oid =>
        by_cases hm : (updateFirst s.docs oid u).2 = 0
        · simp [hm, updateFirst_preserves_type_createdAt]
        · cases hfind : findOne (updateFirst s.docs oid u).1 oid with
          | none => simp [hm, hfind, updateFirst_preserves_type_createdAt]
          | some w => simp [hm, hfind, updateFirst_preserves_type_createdAt]
  · intro u d hd hne
    by_cases hu : u.name = none ∧ u.splits = none
    · obtain ⟨hn, hs⟩ := hu
      obtain ⟨un, us⟩ := u
      cases hn; cases hs
      exact hd
    · rw [update_existing s W hwf hW u hu]
      exact mem_updateFirst_of_ne s.docs W.oid u d hd hne

theorem update_applies_only_supplied_fields_witness :
    update_workout (idString 0) ⟨some "N", none⟩
        ⟨[⟨0, "w", WType.custom, [], 9⟩], 1⟩
      = (.ok (serialize_workout ⟨0, "N", WType.custom, [], 9⟩),
          ⟨(updateFirst [⟨0, "w", WType.custom, [], 9⟩] 0 ⟨some "N", none⟩).1,
            1⟩) :=
  (((update_applies_only_supplied_fields ⟨[⟨0, "w", WType.custom, [], 9⟩], 1⟩
      ⟨0, "w", WType.custom, [], 9⟩ (by decide) (by decide)).1) "N").1

/-- Claim C6: an update request supplying neither a name nor splits is
answered 400 (the "Nenhum dado para atualizar" error, re-stringified by
the catch-all) before any store access, leaving the collection exactly
as it was, for every id string and every store. -/
theorem update_empty_body_400_no_write (workout_id : String) (s : Store) :
    update_workout workout_id ⟨none, none⟩ s
      = (.error (.http 400 "400: Nenhum dado para atualizar"), s) := rfl

/-- Claim C7 (code bug): the claim says deleting a well-formed but
non-existent id fails with 404; in the code the `except Exception`
clause catches the handler's own `HTTPException(404)` and re-raises it
as status 400 (and a fetch after a delete is likewise answered 400, not
404, by `get_workout` — see C1).  Evaluated at the failing input (24
zero hex digits, empty collection). -/
theorem delete_nonexistent_wellformed_id_returns_400 :
    delete_workout "000000000000000000000000" emptyStore
      = (.error (.http 400 "404: Treino não encontrado"), emptyStore) := rfl

/-- Claim C8: creating a valid workout and fetching it by the returned
id yields a 200 whose name, type and splits equal the submitted ones,
with the server-assigned creation timestamp present. -/
theorem create_then_get_roundtrip (s : Store) (h : s.wf)
    (w : WorkoutCreate) (now : Nat) :
    ∃ out : WorkoutOut,
      (create_workout w now s).1 = some out ∧
      get_workout out.id (create_workout w now s).2 = .ok out ∧
      out.name = w.name ∧ out.type = w.type ∧ out.splits = w.splits ∧
      out.createdAt = now := by
  obtain ⟨hbound, hlt, hpw⟩ := h
  have hc := create_spec s ⟨hbound, hlt, hpw⟩ w now
  have hfresh := findOne_append_fresh s.docs
    ⟨s.nextOid, w.name, w.type, w.splits, now⟩
    (fun e he => Nat.ne_of_lt (hlt e he))
  refine ⟨⟨idString s.nextOid, w.name, w.type, w.splits, now⟩, ?_, ?_,
    rfl, rfl, rfl, rfl⟩
  · rw [hc]
  · rw [hc]
    simp only [get_workout]
    rw [parse_idString s.nextOid hbound]
    simp [hfresh, serialize_workout]

theorem create_then_get_roundtrip_witness :
    ∃ out : WorkoutOut,
      (create_workout ⟨"Test", WType.custom,
          [⟨"A", [⟨"Squat", 3, "10", some "", some ""⟩]⟩]⟩ 0 emptyStore).1
        = some out ∧
      get_workout out.id (create_workout ⟨"Test", WType.custom,
          [⟨"A", [⟨"Squat", 3, "10", some "", some ""⟩]⟩]⟩ 0 emptyStore).2
        = .ok out ∧
      out.name = "Test" ∧ out.type = WType.custom ∧
      out.splits = [⟨"A", [⟨"Squat", 3, "10", some "", some ""⟩]⟩] ∧
      out.createdAt = 0 :=
  create_then_get_roundtrip emptyStore (by decide)
    ⟨"Test", WType.custom, [⟨"A", [⟨"Squat", 3, "10", some "", some ""⟩]⟩]⟩ 0

/-- Claim C9: an id string that is not a structurally valid
24-character hex identifier makes every lookup path that parses it —
get, update, delete, copy — answer 400 (never 404): `ObjectId(...)`
raises `InvalidId`, which the catch-all turns into a 400. -/
theorem malformed_id_yields_400_on_lookup_paths (wid : String)
    (hinv : isValidObjectId wid = false) (s : Store) (u : WorkoutUpdate)
    (new_name : String) (now : Nat) :
    respStatus (get_workout wid s) = 400 ∧
    respStatus (update_workout wid u s).1 = 400 ∧
    respStatus (delete_workout wid s).1 = 400 ∧
    respStatus (copy_workout wid new_name now s).1 = 400 := by
  have hp : parseObjectId wid = none := by simp [parseObjectId, hinv]
  refine ⟨?_, ?_, ?_, ?_⟩
  · simp [get_workout, hp, respStatus]
  · by_cases hu : u.name = none ∧ u.splits = none
    · simp [update_workout, hu, respStatus]
    · simp [update_workout, hu, hp, respStatus]
  · simp [delete_workout, hp, respStatus]
  · simp [copy_workout, hp, respStatus]

theorem malformed_id_yields_400_witness :
    respStatus (get_workout "not-an-id" emptyStore) = 400 ∧
    respStatus (update_workout "not-an-id" ⟨some "x", none⟩ emptyStore).1
      = 400 ∧
    respStatus (delete_workout "not-an-id" emptyStore).1 = 400 ∧
    respStatus (copy_workout "not-an-id" "c" 0 emptyStore).1 = 400 :=
  malformed_id_yields_400_on_lookup_paths "not-an-id" (by decide) emptyStore
    ⟨some "x", none⟩ "c" 0

/-- Claim C10: `copy_workout` never inspects the source's type — any
stored workout, predefined or custom, can be copied, and the copy's
type is always `custom`. -/
theorem copy_any_source_type_succeeds (s : Store) (W : WorkoutDoc)
    (h : s.wf) (hW : W ∈ s.docs) (new_name : String) (now : Nat) :
    ∃ out : WorkoutOut,
      (copy_workout (idString W.oid) new_name now s).1 = .ok out ∧
      out.type = WType.custom := by
  refine ⟨⟨idString s.nextOid, new_name, WType.custom, W.splits, now⟩, ?_, rfl⟩
  rw [copy_existing s W h hW new_name now]

theorem copy_any_source_type_succeeds_witness :
    ∃ out : WorkoutOut,
      (copy_workout (idString 0) "Minha cópia" 5
          ⟨[⟨0, "W", WType.custom, [], 0⟩], 1⟩).1 = .ok out ∧
      out.type = WType.custom :=
  copy_any_source_type_succeeds ⟨[⟨0, "W", WType.custom, [], 0⟩], 1⟩
    ⟨0, "W", WType.custom, [], 0⟩ (by decide) (by decide) "Minha cópia" 5

end Academia
